import Mathlib

/-!
Verification development for the renewable-analyzer solar/ROI modeling engine.

The definitions below are a shallow embedding, over `ℚ`, of the Python
calculators in `server/app/core/solar_calculator.py` and
`server/app/core/roi_calculator.py`.  Real-valued quantities are embedded as
rationals; Python's `round(x, n)` (banker's rounding to `n` decimal places) is
embedded as `roundDp n`.  External collaborators (the weather-analysis service
and the electricity-price lookup) are modeled as explicit inputs: the weather
result dictionary becomes a `WeatherData` record and the electricity price a
plain parameter, matching the values those collaborators hand to the core.
-/

namespace RenewableAnalyzer

/-- Round a rational to the nearest integer, ties to even — the rounding used
by Python's built-in `round`. -/
def roundHalfEven (x : ℚ) : ℤ :=
  if x - (⌊x⌋ : ℚ) < 1/2 then ⌊x⌋
  else if 1/2 < x - (⌊x⌋ : ℚ) then ⌊x⌋ + 1
  else if ⌊x⌋ % 2 = 0 then ⌊x⌋ else ⌊x⌋ + 1

/-- Embedding of Python's `round(x, n)`: round to `n` decimal places, ties to
even. -/
def roundDp (n : ℕ) (x : ℚ) : ℚ := (roundHalfEven (x * 10 ^ n) : ℚ) / 10 ^ n

lemma roundHalfEven_ge_floor (x : ℚ) : ⌊x⌋ ≤ roundHalfEven x := by
  unfold roundHalfEven
  split_ifs <;> omega

lemma roundHalfEven_le_floor_add_one (x : ℚ) : roundHalfEven x ≤ ⌊x⌋ + 1 := by
  unfold roundHalfEven
  split_ifs <;> omega

lemma roundHalfEven_mono {x y : ℚ} (h : x ≤ y) :
    roundHalfEven x ≤ roundHalfEven y := by
  rcases lt_or_le ⌊x⌋ ⌊y⌋ with hf | hf
  · calc roundHalfEven x ≤ ⌊x⌋ + 1 := roundHalfEven_le_floor_add_one x
      _ ≤ ⌊y⌋ := by omega
      _ ≤ roundHalfEven y := roundHalfEven_ge_floor y
  · have hfe : ⌊y⌋ = ⌊x⌋ := le_antisymm hf (Int.floor_le_floor h)
    have hfr : x - (⌊x⌋ : ℚ) ≤ y - (⌊y⌋ : ℚ) := by
      rw [hfe]; linarith
    unfold roundHalfEven
    rw [hfe]
    split_ifs <;> first | omega | linarith

lemma roundDp_mono (n : ℕ) {x y : ℚ} (h : x ≤ y) : roundDp n x ≤ roundDp n y := by
  unfold roundDp
  have hp : (0:ℚ) < 10 ^ n := by positivity
  have hm : x * 10 ^ n ≤ y * 10 ^ n :=
    mul_le_mul_of_nonneg_right h (le_of_lt hp)
  exact (div_le_div_iff_of_pos_right hp).mpr (by exact_mod_cast roundHalfEven_mono hm)

/-! ### Solar calculator (`solar_calculator.py`, `SolarCalculator`)

Months are indexed by `Fin 12`; index `m` stands for calendar month `m + 1`.
The weather-analysis dictionary read by `calculate_annual_output_enhanced` is
embedded as `WeatherData`: `daily_irradiance_kwh_m2 = none` models a dictionary
missing the `'daily_irradiance_kwh_m2'` key, and `seasonal_variations m = none`
models month `m + 1` being absent from the `'seasonal_variations'` mapping. -/

/-- The weather-analysis result consumed by the solar calculator (the fields it
reads from the dictionary produced by `WeatherAnalysisService`). -/
structure WeatherData where
  daily_irradiance_kwh_m2 : Option ℚ
  seasonal_variations : Fin 12 → Option ℚ

/-- Errors raised while computing the enhanced solar output.  `valueError`
stands for the `ValueError("Latitude and longitude are required")`;
`zeroDivisionError` for the `ZeroDivisionError` hit in the capacity-factor
division when the system capacity is zero.  Both are re-raised by the
surrounding `except` clause as a generic `Exception`. -/
inductive CalcError where
  | valueError : CalcError
  | zeroDivisionError : CalcError
deriving DecidableEq

/-- The fields of the dictionary returned by
`calculate_annual_output_enhanced` that the specification's claims are about.
`monthly_outputs_kwh` is stored unrounded, exactly as in the source. -/
structure SolarOutput where
  annual_output_kwh : ℚ
  monthly_outputs_kwh : Fin 12 → ℚ
  daily_average_kwh : ℚ
  system_capacity_kw : ℚ
  capacity_factor : ℚ

/-- `PANEL_EFFICIENCY = 0.20`. -/
def PANEL_EFFICIENCY : ℚ := 0.20

/-- `SYSTEM_LOSSES = 0.85`. -/
def SYSTEM_LOSSES : ℚ := 0.85

/-- `self.ORIENTATION_FACTORS.get(orientation.lower(), 0.85)`. -/
def orientationFactor (orient : String) : ℚ :=
  let t := orient.toLower
  if t = "south" then 1.0
  else if t = "southeast" then 0.95
  else if t = "southwest" then 0.95
  else if t = "east" then 0.85
  else if t = "west" then 0.85
  else if t = "northeast" then 0.75
  else if t = "northwest" then 0.75
  else if t = "north" then 0.6
  else 0.85

lemma orientationFactor_pos (orient : String) : 0 < orientationFactor orient := by
  unfold orientationFactor
  dsimp only
  split_ifs <;> norm_num

/-- The values present in the seasonal pattern —
`seasonal_pattern.values()` in the source. -/
def seasonalValues (sp : Fin 12 → Option ℚ) : List ℚ :=
  (List.finRange 12).filterMap sp

/-- `avg_factor = sum(seasonal_pattern.values()) / 12 if seasonal_pattern else 1.0`. -/
def seasonalAvgFactor (sp : Fin 12 → Option ℚ) : ℚ :=
  if seasonalValues sp = [] then 1 else (seasonalValues sp).sum / 12

/-- `normalized_factor = monthly_factor / avg_factor if avg_factor > 0 else 1.0`
with `monthly_factor = seasonal_pattern.get(str(month), 1.0)`. -/
def normalizedFactor (sp : Fin 12 → Option ℚ) (m : Fin 12) : ℚ :=
  if 0 < seasonalAvgFactor sp then ((sp m).getD 1) / seasonalAvgFactor sp else 1

/-- `monthly_outputs[month] = annual_output_kwh * normalized_factor / 12`. -/
def monthlyOutput (annual_output_kwh : ℚ) (sp : Fin 12 → Option ℚ) (m : Fin 12) : ℚ :=
  annual_output_kwh * normalizedFactor sp m / 12

/-- The `annual_output_kwh` computation: annual-average irradiance
(`daily_irradiance / 1.4`) times roof area, panel efficiency, system losses,
orientation factor and 365 days. -/
def annualOutputKwh (daily_irradiance roof_area ofactor : ℚ) : ℚ :=
  (daily_irradiance / 1.4) * roof_area * PANEL_EFFICIENCY * SYSTEM_LOSSES * ofactor * 365

/-- Embedding of `SolarCalculator.calculate_annual_output_enhanced`.  The
weather-service call is already resolved into `wd` (the entry of the analysis
dictionary selected by the `weather_analysis` mode).  Missing latitude or
longitude raises; a zero system capacity makes the `capacity_factor` division
raise `ZeroDivisionError`; otherwise the result dictionary is returned with
the source's roundings applied at the boundary. -/
def calculateAnnualOutputEnhanced (latitude longitude : Option ℚ) (roof_area : ℚ)
    (orient : String) (wd : WeatherData) : Except CalcError SolarOutput :=
  match latitude, longitude with
  | some _, some _ =>
    let daily_irradiance := (wd.daily_irradiance_kwh_m2).getD 3.5
    let system_capacity_kw := roof_area * 0.20
    let annual := annualOutputKwh daily_irradiance roof_area (orientationFactor orient)
    if system_capacity_kw * 8760 = 0 then .error .zeroDivisionError
    else .ok
      { annual_output_kwh := roundDp 2 annual
        monthly_outputs_kwh := fun m => monthlyOutput annual wd.seasonal_variations m
        daily_average_kwh := roundDp 2 (annual / 365)
        system_capacity_kw := roundDp 1 system_capacity_kw
        capacity_factor := roundDp 1 (annual / (system_capacity_kw * 8760) * 100) }
  | _, _ => .error .valueError

/-! ### ROI calculator (`roi_calculator.py`, `ROICalculator`)

The electricity price (`get_electricity_price()`, an external config lookup)
is threaded in as the explicit parameter `electricity_rate`. -/

/-- One entry of the `location_factors` table in
`get_location_specific_factors`. -/
structure LocationFactors where
  incentive_multiplier : ℚ
  grid_cost : ℚ
deriving DecidableEq

/-- `ROICalculator.get_location_specific_factors`: the three known German
cities, with `dict.get`'s default `{1.0, 0.30}` for every other location. -/
def getLocationSpecificFactors (location : String) : LocationFactors :=
  if location = "Berlin" then ⟨1.0, 0.29⟩
  else if location = "Munich" then ⟨1.15, 0.31⟩
  else if location = "Hamburg" then ⟨1.05, 0.30⟩
  else ⟨1.0, 0.30⟩

/-- The dictionary returned by `calculate_german_incentives`. -/
structure IncentivePackage where
  feed_in_tariff_eur_per_kwh : ℚ
  kfw_loan_benefit_eur : ℚ
  regional_incentive_eur : ℚ
  total_incentives_eur : ℚ
deriving DecidableEq

/-- `ROICalculator.calculate_german_incentives`: tiered feed-in tariff scaled
by the location multiplier, KfW benefit capped at 10000, uncapped regional
incentive, all rounded at the return boundary exactly as in the source. -/
def calculateGermanIncentives (system_capacity_kw : ℚ) (location : String) : IncentivePackage :=
  let lf := getLocationSpecificFactors location
  let base_tariff : ℚ :=
    if system_capacity_kw ≤ 10 then 0.082
    else if system_capacity_kw ≤ 40 then 0.071
    else 0.057
  let adjusted_tariff := base_tariff * lf.incentive_multiplier
  let kfw_benefit := min (system_capacity_kw * 200) 10000
  let regional_incentive := system_capacity_kw * 150
  { feed_in_tariff_eur_per_kwh := roundDp 4 adjusted_tariff
    kfw_loan_benefit_eur := roundDp 2 kfw_benefit
    regional_incentive_eur := roundDp 2 regional_incentive
    total_incentives_eur := roundDp 2 (kfw_benefit + regional_incentive) }

/-- The dictionary returned by `calculate_self_consumption_rate`.  `raw_rate`
is `none` in the default branch, whose dictionary has no `raw_rate` key. -/
structure ConsumptionAnalysis where
  self_consumption_rate : ℚ
  method : String
  household_coverage : Option ℚ
  raw_rate : Option ℚ
deriving DecidableEq

/-- `ROICalculator.calculate_self_consumption_rate`.  Python's
`not household_consumption_kwh or household_consumption_kwh <= 0` is exactly
"the argument is `None` or `≤ 0`" for real-valued input. -/
def calculateSelfConsumptionRate (solar_production_kwh : ℚ)
    (household_consumption_kwh : Option ℚ) : ConsumptionAnalysis :=
  match household_consumption_kwh with
  | none => ⟨0.40, "default_average", none, none⟩
  | some hc =>
    if hc ≤ 0 then ⟨0.40, "default_average", none, none⟩
    else
      let raw : ℚ := if hc ≤ solar_production_kwh then hc / solar_production_kwh else 1
      let coverage : ℚ :=
        if hc ≤ solar_production_kwh then 100 else solar_production_kwh / hc * 100
      let adjusted : ℚ :=
        if 0.8 ≤ raw then raw * 0.85
        else if 0.5 ≤ raw then raw * 0.80
        else raw * 0.90
      let final_rate := min 0.95 (max 0.20 adjusted)
      ⟨roundDp 3 final_rate, "household_based", some (roundDp 1 coverage), some (roundDp 3 raw)⟩

/-- The dictionary returned by `calculate_npv_and_irr`. -/
structure NpvIrr where
  npv_eur : ℚ
  irr_percentage : ℚ
  lifetime_savings_eur : ℚ
deriving DecidableEq

/-- The `cash_flows` list of `calculate_npv_and_irr`: year-0 flow
`-total_investment`, then 25 years of degraded savings minus the 200 EUR
annual maintenance cost. -/
def cashFlows (annual_savings total_investment : ℚ) : List ℚ :=
  -total_investment ::
    (List.range 25).map (fun k => annual_savings * (1 - 0.005) ^ (k + 1) - 200)

/-- `ROICalculator.calculate_npv_and_irr`: each cash flow discounted at 4% by
its `enumerate` index, and the IRR approximated as
`annual_savings / total_investment * 100`. -/
def calculateNpvAndIrr (annual_savings total_investment : ℚ) : NpvIrr :=
  let cfs := cashFlows annual_savings total_investment
  let npv := (cfs.enum.map (fun p => p.2 / (1 + 0.04) ^ p.1)).sum
  let irr_estimate := annual_savings / total_investment * 100
  ⟨roundDp 2 npv, roundDp 1 irr_estimate, roundDp 2 cfs.tail.sum⟩

/-- The `scaling_info` dictionary of `calculate_roi`. -/
structure ScalingInfo where
  system_scaled : Bool
  scaling_factor : Option ℚ
  scaled_capacity_kw : Option ℚ
  scaled_annual_kwh : Option ℚ
deriving DecidableEq

/-- State of `calculate_roi`'s local variables after the budget-scaling block
(lines 118–143): possibly scaled production and capacity, the matching
installation cost and incentive package, and the `scaling_info` record. -/
structure RoiInternals where
  annual_kwh : ℚ
  system_capacity_kw : ℚ
  base_installation_cost : ℚ
  incentives : IncentivePackage
  scaling_info : ScalingInfo
deriving DecidableEq

/-- The net system cost used by the budget check:
`base_installation_cost - incentives["total_incentives_eur"]` for the
unscaled system (`system_cost_per_kw = 1800`). -/
def netSystemCost (system_capacity_kw : ℚ) (location : String) : ℚ :=
  system_capacity_kw * 1800 -
    (calculateGermanIncentives system_capacity_kw location).total_incentives_eur

/-- The budget-scaling block of `calculate_roi` (lines 118–143).  Python's
`if budget and budget > 0` holds exactly when the budget is present and
positive; the system is scaled only when additionally
`net_system_cost > budget`, in which case capacity and production shrink by
`budget / net_system_cost` and the incentives are recomputed from the scaled
capacity. -/
def applyBudgetScaling (annual_kwh system_capacity_kw : ℚ) (budget : Option ℚ)
    (location : String) : RoiInternals :=
  let base_installation_cost := system_capacity_kw * 1800
  let incentives := calculateGermanIncentives system_capacity_kw location
  let pass : RoiInternals :=
    ⟨annual_kwh, system_capacity_kw, base_installation_cost, incentives,
      ⟨false, none, none, none⟩⟩
  match budget with
  | none => pass
  | some b =>
    if 0 < b then
      let net_system_cost := base_installation_cost - incentives.total_incentives_eur
      if b < net_system_cost then
        let scaling_factor := b / net_system_cost
        let cap2 := system_capacity_kw * scaling_factor
        let annual2 := annual_kwh * scaling_factor
        ⟨annual2, cap2, cap2 * 1800, calculateGermanIncentives cap2 location,
          ⟨true, some (roundDp 3 scaling_factor), some (roundDp 2 cap2),
            some (roundDp 1 annual2)⟩⟩
      else pass
    else pass

/-- `total_investment` after the 500 EUR floor (lines 145–148). -/
def roiTotalInvestment (st : RoiInternals) : ℚ :=
  let ti := st.base_installation_cost - st.incentives.total_incentives_eur
  if ti < 500 then 500 else ti

/-- `self_consumed_kwh = annual_kwh * self_consumption_rate` (line 158). -/
def selfConsumedKwh (annual_kwh rate : ℚ) : ℚ := annual_kwh * rate

/-- `fed_in_kwh = annual_kwh * feed_in_rate` with `feed_in_rate = 1.0 - rate`
(lines 155, 162). -/
def fedInKwh (annual_kwh rate : ℚ) : ℚ := annual_kwh * (1 - rate)

/-- `annual_savings`: direct electricity savings on the self-consumed share
plus feed-in income on the exported share (lines 157–166). -/
def roiAnnualSavings (st : RoiInternals) (household_consumption : Option ℚ)
    (electricity_rate : ℚ) : ℚ :=
  let rate := (calculateSelfConsumptionRate st.annual_kwh household_consumption).self_consumption_rate
  selfConsumedKwh st.annual_kwh rate * electricity_rate +
    fedInKwh st.annual_kwh rate * st.incentives.feed_in_tariff_eur_per_kwh

/-- The payback computation of lines 168–171: `total_investment /
annual_savings` when the savings are positive, else the 999-year sentinel. -/
def paybackPeriodYears (total_investment annual_savings : ℚ) : ℚ :=
  if 0 < annual_savings then total_investment / annual_savings else 999

/-- The fields of the dictionary returned by `calculate_roi` that the claims
are about. -/
structure RoiResult where
  annual_savings : ℚ
  payback_period : ℚ
  roi_percentage : ℚ
  total_investment : ℚ
  co2_reduction : ℚ
  co2_reduction_lifetime : ℚ
  system_capacity_kw : ℚ
  annual_kwh_adjusted : ℚ
  self_consumed_kwh : ℚ
  fed_in_kwh : ℚ
  electricity_savings_eur : ℚ
  feed_in_income_eur : ℚ
  self_consumption_rate : ℚ
  household_coverage : Option ℚ
  consumption_analysis : ConsumptionAnalysis
  incentives : IncentivePackage
  scaling_info : ScalingInfo
  npv_eur : ℚ
  irr_percentage : ℚ
  lifetime_savings_eur : ℚ
deriving DecidableEq

/-- Embedding of `ROICalculator.calculate_roi`.  `annual_kwh` and
`system_capacity_kw` are the values read from the `solar_output` dictionary;
`electricity_rate` is the snapshot returned by `get_electricity_price()`.
All roundings happen in the returned record, as in the source's return
dictionary. -/
def calculateRoi (annual_kwh system_capacity_kw : ℚ) (budget : Option ℚ)
    (location : String) (household_consumption : Option ℚ)
    (electricity_rate : ℚ) : RoiResult :=
  let st := applyBudgetScaling annual_kwh system_capacity_kw budget location
  let total_investment := roiTotalInvestment st
  let consumption_analysis := calculateSelfConsumptionRate st.annual_kwh household_consumption
  let rate := consumption_analysis.self_consumption_rate
  let self_consumed := selfConsumedKwh st.annual_kwh rate
  let electricity_savings := self_consumed * electricity_rate
  let fed_in := fedInKwh st.annual_kwh rate
  let feed_in_income := fed_in * st.incentives.feed_in_tariff_eur_per_kwh
  let annual_savings := electricity_savings + feed_in_income
  let payback := paybackPeriodYears total_investment annual_savings
  let roi_percentage := (annual_savings * 25 - total_investment) / total_investment * 100
  let fm := calculateNpvAndIrr annual_savings total_investment
  let co2_kg := st.annual_kwh * 0.401
  { annual_savings := roundDp 2 annual_savings
    payback_period := roundDp 1 payback
    roi_percentage := roundDp 1 roi_percentage
    total_investment := roundDp 2 total_investment
    co2_reduction := roundDp 2 (co2_kg / 1000)
    co2_reduction_lifetime := roundDp 1 (co2_kg / 1000 * 25)
    system_capacity_kw := roundDp 2 st.system_capacity_kw
    annual_kwh_adjusted := roundDp 1 st.annual_kwh
    self_consumed_kwh := roundDp 1 self_consumed
    fed_in_kwh := roundDp 1 fed_in
    electricity_savings_eur := roundDp 2 electricity_savings
    feed_in_income_eur := roundDp 2 feed_in_income
    self_consumption_rate := roundDp 1 (rate * 100)
    household_coverage := consumption_analysis.household_coverage
    consumption_analysis := consumption_analysis
    incentives := st.incentives
    scaling_info := st.scaling_info
    npv_eur := fm.npv_eur
    irr_percentage := fm.irr_percentage
    lifetime_savings_eur := fm.lifetime_savings_eur }

/-! ### Supporting lemmas -/

lemma filterMap_eq_map_getD {sp : Fin 12 → Option ℚ} (hall : ∀ m, (sp m).isSome) :
    ∀ l : List (Fin 12), l.filterMap sp = l.map (fun m => (sp m).getD 1) := by
  intro l
  induction l with
  | nil => rfl
  | cons a t ih =>
    obtain ⟨v, hv⟩ := Option.isSome_iff_exists.mp (hall a)
    simp [List.filterMap_cons, hv, ih]

lemma seasonalValues_eq {sp : Fin 12 → Option ℚ} (hall : ∀ m, (sp m).isSome) :
    seasonalValues sp = (List.finRange 12).map (fun m => (sp m).getD 1) :=
  filterMap_eq_map_getD hall _

lemma seasonalValues_sum_pos {sp : Fin 12 → Option ℚ} (hall : ∀ m, (sp m).isSome)
    (hpos : ∀ m v, sp m = some v → 0 < v) : 0 < (seasonalValues sp).sum := by
  rw [seasonalValues_eq hall]
  apply List.sum_pos
  · intro x hx
    obtain ⟨m, _, hm⟩ := List.mem_map.mp hx
    obtain ⟨v, hv⟩ := Option.isSome_iff_exists.mp (hall m)
    rw [← hm, hv, Option.getD_some]
    exact hpos m v hv
  · have : ((List.finRange 12).map (fun m => (sp m).getD 1)).length = 12 := by
      rw [List.length_map, List.length_finRange]
    intro hnil
    rw [hnil] at this
    simp at this

lemma seasonalAvgFactor_eq {sp : Fin 12 → Option ℚ} (hall : ∀ m, (sp m).isSome) :
    seasonalAvgFactor sp = ((List.finRange 12).map (fun m => (sp m).getD 1)).sum / 12 := by
  have hne : seasonalValues sp ≠ [] := by
    rw [seasonalValues_eq hall]
    intro hnil
    have := congrArg List.length hnil
    rw [List.length_map, List.length_finRange] at this
    simp at this
  rw [seasonalAvgFactor, if_neg hne, seasonalValues_eq hall]

lemma seasonalAvgFactor_pos {sp : Fin 12 → Option ℚ} (hall : ∀ m, (sp m).isSome)
    (hpos : ∀ m v, sp m = some v → 0 < v) : 0 < seasonalAvgFactor sp := by
  rw [seasonalAvgFactor_eq hall]
  have := seasonalValues_sum_pos hall hpos
  rw [seasonalValues_eq hall] at this
  positivity

lemma monthlyOutput_eq {sp : Fin 12 → Option ℚ} (hall : ∀ m, (sp m).isSome)
    (hpos : ∀ m v, sp m = some v → 0 < v) (annual : ℚ) (m : Fin 12) :
    monthlyOutput annual sp m = annual * (((sp m).getD 1) / seasonalAvgFactor sp) / 12 := by
  rw [monthlyOutput, normalizedFactor, if_pos (seasonalAvgFactor_pos hall hpos)]

lemma monthlyOutput_sum {sp : Fin 12 → Option ℚ} (hall : ∀ m, (sp m).isSome)
    (hpos : ∀ m v, sp m = some v → 0 < v) (annual : ℚ) :
    ((List.finRange 12).map (monthlyOutput annual sp)).sum = annual := by
  have hS : 0 < ((List.finRange 12).map (fun m => (sp m).getD 1)).sum := by
    have := seasonalValues_sum_pos hall hpos
    rwa [seasonalValues_eq hall] at this
  set S := ((List.finRange 12).map (fun m => (sp m).getD 1)).sum with hSdef
  have hfun : monthlyOutput annual sp = fun m => annual / S * ((sp m).getD 1) := by
    funext m
    rw [monthlyOutput_eq hall hpos, seasonalAvgFactor_eq hall, ← hSdef]
    field_simp
    ring
  rw [hfun, List.sum_map_mul_left, ← hSdef]
  field_simp

lemma orientationFactor_annual_pos {d roof_area : ℚ} (hd : 0 < d) (hroof : 0 < roof_area)
    (orient : String) : 0 < annualOutputKwh d roof_area (orientationFactor orient) := by
  have := orientationFactor_pos orient
  rw [annualOutputKwh, PANEL_EFFICIENCY, SYSTEM_LOSSES]
  positivity

/-! ### Claims -/

/-- C1: every production estimate returned by `calculate_annual_output_enhanced`
for a positive roof area, any orientation string, a positive daily irradiance
and a weather-service seasonal pattern (all 12 months present, strictly
positive factors) has each month's output equal to
`annual_output_kwh × ((month's factor, default 1.0 when absent) / average factor) / 12`,
and the 12 monthly outputs sum to the annual output exactly, hence differ from
it by less than `0.01 × annual_output_kwh`. -/
theorem enhanced_monthly_distribution_consistency
    (lat lon d roof_area : ℚ) (orient : String) (sp : Fin 12 → Option ℚ)
    (hroof : 0 < roof_area) (hd : 0 < d)
    (hall : ∀ m, (sp m).isSome) (hpos : ∀ m v, sp m = some v → 0 < v) :
    ∃ out : SolarOutput,
      calculateAnnualOutputEnhanced (some lat) (some lon) roof_area orient ⟨some d, sp⟩
        = .ok out ∧
      (∀ m, out.monthly_outputs_kwh m
          = annualOutputKwh d roof_area (orientationFactor orient)
              * (((sp m).getD 1) / seasonalAvgFactor sp) / 12) ∧
      |((List.finRange 12).map out.monthly_outputs_kwh).sum
          - annualOutputKwh d roof_area (orientationFactor orient)|
        < 0.01 * annualOutputKwh d roof_area (orientationFactor orient) := by
  have hcap : ¬ (roof_area * 0.20 * 8760 = 0) := by
    intro h
    rcases mul_eq_zero.mp h with h | h
    · rcases mul_eq_zero.mp h with h | h
      · exact absurd h (ne_of_gt hroof)
      · norm_num at h
    · norm_num at h
  refine ⟨{ annual_output_kwh := roundDp 2 (annualOutputKwh d roof_area (orientationFactor orient))
            monthly_outputs_kwh := fun m =>
              monthlyOutput (annualOutputKwh d roof_area (orientationFactor orient)) sp m
            daily_average_kwh := roundDp 2 (annualOutputKwh d roof_area (orientationFactor orient) / 365)
            system_capacity_kw := roundDp 1 (roof_area * 0.20)
            capacity_factor := roundDp 1 (annualOutputKwh d roof_area (orientationFactor orient)
              / (roof_area * 0.20 * 8760) * 100) }, ?_, ?_, ?_⟩
  · unfold calculateAnnualOutputEnhanced
    rw [if_neg hcap]
    rfl
  · intro m
    exact monthlyOutput_eq hall hpos _ m
  · have hsum := monthlyOutput_sum hall hpos
      (annualOutputKwh d roof_area (orientationFactor orient))
    show |((List.finRange 12).map
        (fun m => monthlyOutput (annualOutputKwh d roof_area (orientationFactor orient)) sp m)).sum
        - annualOutputKwh d roof_area (orientationFactor orient)| < _
    rw [hsum, sub_self, abs_zero]
    have := orientationFactor_annual_pos hd hroof orient
    positivity

/-- Witness for C1: a 50 m² south roof, daily irradiance 3.5, flat seasonal
pattern with all 12 months present at factor 1. -/
theorem enhanced_monthly_distribution_consistency_witness :
    (0:ℚ) < 50 ∧ (0:ℚ) < 3.5 ∧
    (∀ m : Fin 12, ((fun _ : Fin 12 => some (1:ℚ)) m).isSome) ∧
    (∀ (m : Fin 12) (v : ℚ), (fun _ : Fin 12 => some (1:ℚ)) m = some v → 0 < v) ∧
    (∃ out : SolarOutput,
      calculateAnnualOutputEnhanced (some 52) (some 13) 50 "south"
          ⟨some 3.5, fun _ => some 1⟩ = .ok out ∧
      (∀ m, out.monthly_outputs_kwh m
          = annualOutputKwh 3.5 50 (orientationFactor "south")
              * ((((fun _ : Fin 12 => some (1:ℚ)) m).getD 1)
                  / seasonalAvgFactor (fun _ => some 1)) / 12) ∧
      |((List.finRange 12).map out.monthly_outputs_kwh).sum
          - annualOutputKwh 3.5 50 (orientationFactor "south")|
        < 0.01 * annualOutputKwh 3.5 50 (orientationFactor "south")) :=
  ⟨by norm_num, by norm_num, fun m => rfl,
    fun m v h => by injection h with h2; rw [← h2]; norm_num,
    enhanced_monthly_distribution_consistency 52 13 3.5 50 "south" (fun _ => some 1)
      (by norm_num) (by norm_num) (fun m => rfl)
      (fun m v h => by injection h with h2; rw [← h2]; norm_num)⟩

/-- C2 counterexample: with valid coordinates, a negative roof area of −5 m²
and a weather dictionary missing the irradiance field, the function neither
raises an invalid-input error for the non-positive roof area nor for the
missing irradiance field — it returns an ordinary estimate. -/
theorem enhanced_no_input_validation_counterexample :
    (calculateAnnualOutputEnhanced (some 52) (some 13) (-5) "south"
        ⟨none, fun _ => some 1⟩).isOk = true := by
  unfold calculateAnnualOutputEnhanced
  rw [if_neg (by norm_num)]
  rfl

/-- C2 (amended): `calculate_annual_output_enhanced` performs no roof-area
validation and no irradiance-field validation.  It fails only when latitude or
longitude is missing (a generic `ValueError`, not an `InvalidInputError`) or
when the roof area is exactly 0 (a `ZeroDivisionError` in the capacity-factor
division); a missing irradiance field is silently defaulted to 3.5 kWh/m²/day;
any nonzero roof area—including negative ones—yields an ordinary `ok`
estimate, a negative roof area with positive irradiance producing a negative
annual output. -/
theorem enhanced_error_behaviour
    (latitude longitude : Option ℚ) (roof_area : ℚ) (orient : String) (wd : WeatherData) :
    (latitude = none ∨ longitude = none →
      calculateAnnualOutputEnhanced latitude longitude roof_area orient wd
        = .error .valueError) ∧
    (latitude.isSome → longitude.isSome → roof_area = 0 →
      calculateAnnualOutputEnhanced latitude longitude roof_area orient wd
        = .error .zeroDivisionError) ∧
    (latitude.isSome → longitude.isSome → roof_area ≠ 0 →
      ∃ out : SolarOutput,
        calculateAnnualOutputEnhanced latitude longitude roof_area orient wd = .ok out ∧
        out.annual_output_kwh
          = roundDp 2 (annualOutputKwh ((wd.daily_irradiance_kwh_m2).getD 3.5) roof_area
              (orientationFactor orient))) ∧
    (∀ d, wd.daily_irradiance_kwh_m2 = some d → 0 < d → roof_area < 0 →
      annualOutputKwh d roof_area (orientationFactor orient) < 0) := by
  refine ⟨?_, ?_, ?_, ?_⟩
  · rintro (rfl | rfl)
    · rfl
    · cases latitude <;> rfl
  · intro hlat hlon hroof
    obtain ⟨a, rfl⟩ := Option.isSome_iff_exists.mp hlat
    obtain ⟨b, rfl⟩ := Option.isSome_iff_exists.mp hlon
    unfold calculateAnnualOutputEnhanced
    rw [if_pos (by rw [hroof]; norm_num)]
  · intro hlat hlon hroof
    obtain ⟨a, rfl⟩ := Option.isSome_iff_exists.mp hlat
    obtain ⟨b, rfl⟩ := Option.isSome_iff_exists.mp hlon
    have hcap : ¬ (roof_area * 0.20 * 8760 = 0) := by
      intro h
      rcases mul_eq_zero.mp h with h | h
      · rcases mul_eq_zero.mp h with h | h
        · exact hroof h
        · norm_num at h
      · norm_num at h
    refine ⟨{ annual_output_kwh := roundDp 2 (annualOutputKwh ((wd.daily_irradiance_kwh_m2).getD 3.5)
                roof_area (orientationFactor orient))
              monthly_outputs_kwh := fun m =>
                monthlyOutput (annualOutputKwh ((wd.daily_irradiance_kwh_m2).getD 3.5)
                  roof_area (orientationFactor orient)) wd.seasonal_variations m
              daily_average_kwh := roundDp 2 (annualOutputKwh ((wd.daily_irradiance_kwh_m2).getD 3.5)
                roof_area (orientationFactor orient) / 365)
              system_capacity_kw := roundDp 1 (roof_area * 0.20)
              capacity_factor := roundDp 1 (annualOutputKwh ((wd.daily_irradiance_kwh_m2).getD 3.5)
                roof_area (orientationFactor orient) / (roof_area * 0.20 * 8760) * 100) }, ?_, rfl⟩
    unfold calculateAnnualOutputEnhanced
    rw [if_neg hcap]
  · intro d hd hdpos hroof
    have hof := orientationFactor_pos orient
    rw [annualOutputKwh, PANEL_EFFICIENCY, SYSTEM_LOSSES]
    have h14 : 0 < d / 1.4 := by positivity
    nlinarith [mul_pos h14 hof]

/-- C3: inside `calculate_roi` the self-consumed and fed-in energy always
partition the (possibly budget-scaled) annual production exactly:
`annual × rate + annual × (1 − rate) = annual`. -/
theorem roi_self_consumption_partition
    (annual_kwh system_capacity_kw : ℚ) (budget : Option ℚ) (location : String)
    (household_consumption : Option ℚ)
    (h_annual : 0 < annual_kwh)
    (h_household : ∀ v, household_consumption = some v → 0 ≤ v) :
    selfConsumedKwh (applyBudgetScaling annual_kwh system_capacity_kw budget location).annual_kwh
        ((calculateSelfConsumptionRate
            (applyBudgetScaling annual_kwh system_capacity_kw budget location).annual_kwh
            household_consumption).self_consumption_rate)
      + fedInKwh (applyBudgetScaling annual_kwh system_capacity_kw budget location).annual_kwh
        ((calculateSelfConsumptionRate
            (applyBudgetScaling annual_kwh system_capacity_kw budget location).annual_kwh
            household_consumption).self_consumption_rate)
      = (applyBudgetScaling annual_kwh system_capacity_kw budget location).annual_kwh := by
  unfold selfConsumedKwh fedInKwh
  ring

/-- Witness for C3: 9000 kWh production, 10 kW capacity, no budget, Berlin,
4000 kWh household consumption. -/
theorem roi_self_consumption_partition_witness :
    (0:ℚ) < 9000 ∧ (∀ v : ℚ, (some (4000:ℚ)) = some v → 0 ≤ v) ∧
    selfConsumedKwh (applyBudgetScaling 9000 10 none "Berlin").annual_kwh
        ((calculateSelfConsumptionRate (applyBudgetScaling 9000 10 none "Berlin").annual_kwh
            (some 4000)).self_consumption_rate)
      + fedInKwh (applyBudgetScaling 9000 10 none "Berlin").annual_kwh
        ((calculateSelfConsumptionRate (applyBudgetScaling 9000 10 none "Berlin").annual_kwh
            (some 4000)).self_consumption_rate)
      = (applyBudgetScaling 9000 10 none "Berlin").annual_kwh :=
  ⟨by norm_num, fun v hv => by injection hv with h2; rw [← h2]; norm_num,
    roi_self_consumption_partition 9000 10 none "Berlin" (some 4000) (by norm_num)
      (fun v hv => by injection hv with h2; rw [← h2]; norm_num)⟩

lemma totalIncentives_mono (location : String) {c d : ℚ} (h : c ≤ d) :
    (calculateGermanIncentives c location).total_incentives_eur
      ≤ (calculateGermanIncentives d location).total_incentives_eur := by
  unfold calculateGermanIncentives
  dsimp only
  apply roundDp_mono
  have h1 : min (c * 200) 10000 ≤ min (d * 200) 10000 :=
    min_le_min (by linarith) le_rfl
  linarith

lemma netSystemCost_cap_zero (location : String) : netSystemCost 0 location = 0 := by
  norm_num [netSystemCost, calculateGermanIncentives, roundDp, roundHalfEven]

/-- C4: when the budget binds (`0 < budget < net_system_cost`, the capacity
being physically non-negative), `calculate_roi` scales by
`budget / net_system_cost ∈ (0,1)`: capacity and annual production are
multiplied by it, the incentives are recomputed from the scaled capacity via
`calculate_german_incentives`, the scaled capacity is strictly below the
original, and the recomputed incentive total never exceeds the original. -/
theorem budget_scaling_binding
    (annual_kwh system_capacity_kw b : ℚ) (location : String)
    (hcap : 0 ≤ system_capacity_kw) (hb : 0 < b)
    (hbind : b < netSystemCost system_capacity_kw location) :
    0 < b / netSystemCost system_capacity_kw location ∧
    b / netSystemCost system_capacity_kw location < 1 ∧
    (applyBudgetScaling annual_kwh system_capacity_kw (some b) location).system_capacity_kw
      = system_capacity_kw * (b / netSystemCost system_capacity_kw location) ∧
    (applyBudgetScaling annual_kwh system_capacity_kw (some b) location).annual_kwh
      = annual_kwh * (b / netSystemCost system_capacity_kw location) ∧
    (applyBudgetScaling annual_kwh system_capacity_kw (some b) location).incentives
      = calculateGermanIncentives
          (system_capacity_kw * (b / netSystemCost system_capacity_kw location)) location ∧
    (applyBudgetScaling annual_kwh system_capacity_kw (some b) location).system_capacity_kw
      < system_capacity_kw ∧
    (applyBudgetScaling annual_kwh system_capacity_kw (some b) location).incentives.total_incentives_eur
      ≤ (calculateGermanIncentives system_capacity_kw location).total_incentives_eur ∧
    (applyBudgetScaling annual_kwh system_capacity_kw (some b) location).scaling_info.system_scaled
      = true := by
  have hnet : 0 < netSystemCost system_capacity_kw location := lt_trans hb hbind
  have hcappos : 0 < system_capacity_kw := by
    rcases lt_or_eq_of_le hcap with h | h
    · exact h
    · exfalso
      rw [← h, netSystemCost_cap_zero] at hnet
      exact lt_irrefl 0 hnet
  have hf0 : 0 < b / netSystemCost system_capacity_kw location := div_pos hb hnet
  have hf1 : b / netSystemCost system_capacity_kw location < 1 :=
    (div_lt_one hnet).mpr hbind
  have happ : applyBudgetScaling annual_kwh system_capacity_kw (some b) location
      = ⟨annual_kwh * (b / netSystemCost system_capacity_kw location),
          system_capacity_kw * (b / netSystemCost system_capacity_kw location),
          system_capacity_kw * (b / netSystemCost system_capacity_kw location) * 1800,
          calculateGermanIncentives
            (system_capacity_kw * (b / netSystemCost system_capacity_kw location)) location,
          ⟨true, some (roundDp 3 (b / netSystemCost system_capacity_kw location)),
            some (roundDp 2 (system_capacity_kw * (b / netSystemCost system_capacity_kw location))),
            some (roundDp 1 (annual_kwh * (b / netSystemCost system_capacity_kw location)))⟩⟩ := by
    unfold netSystemCost at hbind
    unfold applyBudgetScaling
    dsimp only
    rw [if_pos hb, if_pos hbind]
    rfl
  have hlt : system_capacity_kw * (b / netSystemCost system_capacity_kw location)
      < system_capacity_kw := by
    calc system_capacity_kw * (b / netSystemCost system_capacity_kw location)
        < system_capacity_kw * 1 := by
          exact mul_lt_mul_of_pos_left hf1 hcappos
      _ = system_capacity_kw := mul_one _
  refine ⟨hf0, hf1, ?_, ?_, ?_, ?_, ?_, ?_⟩
  · rw [happ]
  · rw [happ]
  · rw [happ]
  · rw [happ]; exact hlt
  · rw [happ]
    exact totalIncentives_mono location (le_of_lt hlt)
  · rw [happ]

/-- Witness for C4: 10 kW and 9000 kWh in Berlin, budget 10000, where the net
system cost is 14500. -/
theorem budget_scaling_binding_witness :
    (0:ℚ) ≤ 10 ∧ (0:ℚ) < 10000 ∧ (10000:ℚ) < netSystemCost 10 "Berlin" ∧
    ((applyBudgetScaling 9000 10 (some 10000) "Berlin").system_capacity_kw
      = 10 * (10000 / netSystemCost 10 "Berlin") ∧
    (applyBudgetScaling 9000 10 (some 10000) "Berlin").system_capacity_kw < 10 ∧
    (applyBudgetScaling 9000 10 (some 10000) "Berlin").incentives.total_incentives_eur
      ≤ (calculateGermanIncentives 10 "Berlin").total_incentives_eur) := by
  have hnet : netSystemCost 10 "Berlin" = 14500 := by
    norm_num [netSystemCost, calculateGermanIncentives, getLocationSpecificFactors,
      roundDp, roundHalfEven]
  have h := budget_scaling_binding 9000 10 10000 "Berlin" (by norm_num)
    (by norm_num) (by rw [hnet]; norm_num)
  exact ⟨by norm_num, by norm_num, by rw [hnet]; norm_num,
    h.2.2.1, h.2.2.2.2.2.1, h.2.2.2.2.2.2.1⟩

/-- C5: the budget-scaling step is a pure passthrough — production, capacity,
cost and incentives unchanged, `system_scaled = false` — when the budget is
absent or non-positive, or when the net system cost does not exceed the
budget (which covers a non-positive net system cost against any positive
budget). -/
theorem budget_scaling_passthrough
    (annual_kwh system_capacity_kw : ℚ) (location : String) (budget : Option ℚ)
    (h : budget = none ∨ ∃ b, budget = some b ∧
      (b ≤ 0 ∨ netSystemCost system_capacity_kw location ≤ b)) :
    applyBudgetScaling annual_kwh system_capacity_kw budget location
      = ⟨annual_kwh, system_capacity_kw, system_capacity_kw * 1800,
          calculateGermanIncentives system_capacity_kw location,
          ⟨false, none, none, none⟩⟩ := by
  rcases h with rfl | ⟨b, rfl, hb | hb⟩
  · rfl
  · unfold applyBudgetScaling
    dsimp only
    rw [if_neg (not_lt.mpr hb)]
  · unfold netSystemCost at hb
    unfold applyBudgetScaling
    dsimp only
    by_cases hpos : 0 < b
    · rw [if_pos hpos, if_neg (not_lt.mpr hb)]
    · rw [if_neg hpos]

/-- Witness for C5: Berlin, 10 kW, 9000 kWh, budget 100000 which exceeds the
14500 net system cost. -/
theorem budget_scaling_passthrough_witness :
    ((some (100000:ℚ)) = none ∨ ∃ b, (some (100000:ℚ)) = some b ∧
      (b ≤ 0 ∨ netSystemCost 10 "Berlin" ≤ b)) ∧
    applyBudgetScaling 9000 10 (some 100000) "Berlin"
      = ⟨9000, 10, 10 * 1800, calculateGermanIncentives 10 "Berlin",
          ⟨false, none, none, none⟩⟩ := by
  have hnet : netSystemCost 10 "Berlin" = 14500 := by
    norm_num [netSystemCost, calculateGermanIncentives, getLocationSpecificFactors,
      roundDp, roundHalfEven]
  have hcase : (some (100000:ℚ)) = none ∨ ∃ b, (some (100000:ℚ)) = some b ∧
      (b ≤ 0 ∨ netSystemCost 10 "Berlin" ≤ b) :=
    Or.inr ⟨100000, rfl, Or.inr (by rw [hnet]; norm_num)⟩
  exact ⟨hcase, budget_scaling_passthrough 9000 10 "Berlin" (some 100000) hcase⟩

/-- Witness for C2 (amended): a 30 m² east roof with valid coordinates and a
present irradiance of 4 returns an ok estimate with the stated annual
output. -/
theorem enhanced_error_behaviour_witness :
    (some (52:ℚ)).isSome ∧ (some (13:ℚ)).isSome ∧ (30:ℚ) ≠ 0 ∧
    (∃ out : SolarOutput,
      calculateAnnualOutputEnhanced (some 52) (some 13) 30 "east"
          ⟨some 4, fun _ => some 1⟩ = .ok out ∧
      out.annual_output_kwh
        = roundDp 2 (annualOutputKwh
            (((⟨some 4, fun _ => some 1⟩ : WeatherData).daily_irradiance_kwh_m2).getD 3.5)
            30 (orientationFactor "east"))) :=
  ⟨rfl, rfl, by norm_num,
    (enhanced_error_behaviour (some 52) (some 13) 30 "east"
        ⟨some 4, fun _ => some 1⟩).2.2.1 rfl rfl (by norm_num)⟩

/-- C6 counterexample: at capacity 0.00001 kW in Berlin the returned KfW
benefit is `round(0.002, 2) = 0.0`, not `min(capacity × 200, 10000) = 0.002`
as the claim's un-rounded formula states. -/
theorem german_incentives_formula_counterexample :
    (calculateGermanIncentives (1/100000) "Berlin").kfw_loan_benefit_eur
      ≠ min ((1/100000 : ℚ) * 200) 10000 := by
  norm_num [calculateGermanIncentives, getLocationSpecificFactors, roundDp, roundHalfEven]

/-- C6 (amended): `calculate_german_incentives` returns the claim's formulas
with the source's output roundings applied — the tariff
`(0.082 | 0.071 | 0.057) × multiplier` rounded to 4 decimals (tiers inclusive
at 10 and 40, multiplier 1.0 for unrecognized locations), the KfW benefit
`min(capacity × 200, 10000)` and the regional incentive `capacity × 150`
rounded to 2 decimals, and the total the 2-decimal rounding of their unrounded
sum; the concrete scenario capacity 10, multiplier 1.0 yields exactly
tariff 0.082, kfw 2000, regional 1500, total 3500. -/
theorem german_incentives_fields (system_capacity_kw : ℚ) (location : String) :
    calculateGermanIncentives system_capacity_kw location
      = { feed_in_tariff_eur_per_kwh := roundDp 4 ((if system_capacity_kw ≤ 10 then 0.082
            else if system_capacity_kw ≤ 40 then 0.071 else 0.057)
            * (getLocationSpecificFactors location).incentive_multiplier)
          kfw_loan_benefit_eur := roundDp 2 (min (system_capacity_kw * 200) 10000)
          regional_incentive_eur := roundDp 2 (system_capacity_kw * 150)
          total_incentives_eur := roundDp 2 (min (system_capacity_kw * 200) 10000
            + system_capacity_kw * 150) } ∧
    calculateGermanIncentives 10 "Berlin"
      = { feed_in_tariff_eur_per_kwh := 0.082, kfw_loan_benefit_eur := 2000,
          regional_incentive_eur := 1500, total_incentives_eur := 3500 } :=
  ⟨rfl, by
    norm_num [calculateGermanIncentives, getLocationSpecificFactors, roundDp,
      roundHalfEven, IncentivePackage.mk.injEq]⟩

/-- C7: with a positive supplied household consumption and positive
production, `calculate_self_consumption_rate` takes the household branch:
raw rate `consumption/production` with 100% coverage when consumption fits
inside production, else raw rate 1 with coverage `production/consumption ×
100`; the raw rate is dampened (×0.85 when ≥ 0.8, ×0.80 when in [0.5, 0.8),
×0.90 below 0.5) and the final rate is the clamp of the result to
[0.20, 0.95] (rounded to 3 decimals), so the returned rate always lies in
[0.20, 0.95]. -/
theorem household_self_consumption (solar_production_kwh hc : ℚ)
    (hprod : 0 < solar_production_kwh) (hhc : 0 < hc) :
    calculateSelfConsumptionRate solar_production_kwh (some hc)
      = { self_consumption_rate := roundDp 3 (min 0.95 (max 0.20
            (if 0.8 ≤ (if hc ≤ solar_production_kwh then hc / solar_production_kwh else 1)
              then (if hc ≤ solar_production_kwh then hc / solar_production_kwh else 1) * 0.85
              else if 0.5 ≤ (if hc ≤ solar_production_kwh then hc / solar_production_kwh else 1)
                then (if hc ≤ solar_production_kwh then hc / solar_production_kwh else 1) * 0.80
                else (if hc ≤ solar_production_kwh then hc / solar_production_kwh else 1) * 0.90)))
          method := "household_based"
          household_coverage := some (roundDp 1 (if hc ≤ solar_production_kwh then 100
            else solar_production_kwh / hc * 100))
          raw_rate := some (roundDp 3
            (if hc ≤ solar_production_kwh then hc / solar_production_kwh else 1)) } ∧
    0.20 ≤ (calculateSelfConsumptionRate solar_production_kwh
      (some hc)).self_consumption_rate ∧
    (calculateSelfConsumptionRate solar_production_kwh
      (some hc)).self_consumption_rate ≤ 0.95 := by
  have heq : calculateSelfConsumptionRate solar_production_kwh (some hc)
      = { self_consumption_rate := roundDp 3 (min 0.95 (max 0.20
            (if 0.8 ≤ (if hc ≤ solar_production_kwh then hc / solar_production_kwh else 1)
              then (if hc ≤ solar_production_kwh then hc / solar_production_kwh else 1) * 0.85
              else if 0.5 ≤ (if hc ≤ solar_production_kwh then hc / solar_production_kwh else 1)
                then (if hc ≤ solar_production_kwh then hc / solar_production_kwh else 1) * 0.80
                else (if hc ≤ solar_production_kwh then hc / solar_production_kwh else 1) * 0.90)))
          method := "household_based"
          household_coverage := some (roundDp 1 (if hc ≤ solar_production_kwh then 100
            else solar_production_kwh / hc * 100))
          raw_rate := some (roundDp 3
            (if hc ≤ solar_production_kwh then hc / solar_production_kwh else 1)) } := by
    unfold calculateSelfConsumptionRate
    dsimp only
    rw [if_neg (not_le.mpr hhc)]
  refine ⟨heq, ?_, ?_⟩
  · rw [heq]
    have h1 : (0.20:ℚ) ≤ min 0.95 (max 0.20
        (if 0.8 ≤ (if hc ≤ solar_production_kwh then hc / solar_production_kwh else 1)
          then (if hc ≤ solar_production_kwh then hc / solar_production_kwh else 1) * 0.85
          else if 0.5 ≤ (if hc ≤ solar_production_kwh then hc / solar_production_kwh else 1)
            then (if hc ≤ solar_production_kwh then hc / solar_production_kwh else 1) * 0.80
            else (if hc ≤ solar_production_kwh then hc / solar_production_kwh else 1) * 0.90)) :=
      le_min (by norm_num) (le_max_left _ _)
    have h2 := roundDp_mono 3 h1
    have h3 : roundDp 3 (0.20:ℚ) = 0.20 := by norm_num [roundDp, roundHalfEven]
    rw [h3] at h2
    exact h2
  · rw [heq]
    have h1 : min (0.95:ℚ) (max 0.20
        (if 0.8 ≤ (if hc ≤ solar_production_kwh then hc / solar_production_kwh else 1)
          then (if hc ≤ solar_production_kwh then hc / solar_production_kwh else 1) * 0.85
          else if 0.5 ≤ (if hc ≤ solar_production_kwh then hc / solar_production_kwh else 1)
            then (if hc ≤ solar_production_kwh then hc / solar_production_kwh else 1) * 0.80
            else (if hc ≤ solar_production_kwh then hc / solar_production_kwh else 1) * 0.90))
        ≤ 0.95 := min_le_left _ _
    have h2 := roundDp_mono 3 h1
    have h3 : roundDp 3 (0.95:ℚ) = 0.95 := by norm_num [roundDp, roundHalfEven]
    rw [h3] at h2
    exact h2

/-- Witness for C7: production 9000 kWh, household consumption 4000 kWh. -/
theorem household_self_consumption_witness :
    (0:ℚ) < 9000 ∧ (0:ℚ) < 4000 ∧
    (0.20 ≤ (calculateSelfConsumptionRate 9000 (some 4000)).self_consumption_rate ∧
      (calculateSelfConsumptionRate 9000 (some 4000)).self_consumption_rate ≤ 0.95) :=
  ⟨by norm_num, by norm_num,
    (household_self_consumption 9000 4000 (by norm_num) (by norm_num)).2⟩

/-- C8: `calculate_roi` resolves non-positive annual savings with the fixed
999-year payback sentinel — the returned `payback_period` is exactly 999,
with no division performed — and for positive savings the payback variable is
exactly `total_investment / annual_savings` (the returned field being its
1-decimal rounding). -/
theorem payback_sentinel
    (annual_kwh system_capacity_kw : ℚ) (budget : Option ℚ) (location : String)
    (household_consumption : Option ℚ) (electricity_rate : ℚ) :
    (roiAnnualSavings (applyBudgetScaling annual_kwh system_capacity_kw budget location)
        household_consumption electricity_rate ≤ 0 →
      paybackPeriodYears
          (roiTotalInvestment (applyBudgetScaling annual_kwh system_capacity_kw budget location))
          (roiAnnualSavings (applyBudgetScaling annual_kwh system_capacity_kw budget location)
            household_consumption electricity_rate) = 999 ∧
      (calculateRoi annual_kwh system_capacity_kw budget location household_consumption
          electricity_rate).payback_period = 999) ∧
    (0 < roiAnnualSavings (applyBudgetScaling annual_kwh system_capacity_kw budget location)
        household_consumption electricity_rate →
      paybackPeriodYears
          (roiTotalInvestment (applyBudgetScaling annual_kwh system_capacity_kw budget location))
          (roiAnnualSavings (applyBudgetScaling annual_kwh system_capacity_kw budget location)
            household_consumption electricity_rate)
        = roiTotalInvestment (applyBudgetScaling annual_kwh system_capacity_kw budget location)
            / roiAnnualSavings (applyBudgetScaling annual_kwh system_capacity_kw budget location)
                household_consumption electricity_rate ∧
      (calculateRoi annual_kwh system_capacity_kw budget location household_consumption
          electricity_rate).payback_period
        = roundDp 1 (roiTotalInvestment
              (applyBudgetScaling annual_kwh system_capacity_kw budget location)
            / roiAnnualSavings (applyBudgetScaling annual_kwh system_capacity_kw budget location)
                household_consumption electricity_rate)) := by
  constructor
  · intro hle
    have hp : paybackPeriodYears
        (roiTotalInvestment (applyBudgetScaling annual_kwh system_capacity_kw budget location))
        (roiAnnualSavings (applyBudgetScaling annual_kwh system_capacity_kw budget location)
          household_consumption electricity_rate) = 999 := by
      unfold paybackPeriodYears
      rw [if_neg (not_lt.mpr hle)]
    refine ⟨hp, ?_⟩
    show roundDp 1 (paybackPeriodYears
        (roiTotalInvestment (applyBudgetScaling annual_kwh system_capacity_kw budget location))
        (roiAnnualSavings (applyBudgetScaling annual_kwh system_capacity_kw budget location)
          household_consumption electricity_rate)) = 999
    rw [hp]
    norm_num [roundDp, roundHalfEven]
  · intro hpos
    have hp : paybackPeriodYears
        (roiTotalInvestment (applyBudgetScaling annual_kwh system_capacity_kw budget location))
        (roiAnnualSavings (applyBudgetScaling annual_kwh system_capacity_kw budget location)
          household_consumption electricity_rate)
        = roiTotalInvestment (applyBudgetScaling annual_kwh system_capacity_kw budget location)
            / roiAnnualSavings (applyBudgetScaling annual_kwh system_capacity_kw budget location)
                household_consumption electricity_rate := by
      unfold paybackPeriodYears
      rw [if_pos hpos]
    refine ⟨hp, ?_⟩
    show roundDp 1 (paybackPeriodYears
        (roiTotalInvestment (applyBudgetScaling annual_kwh system_capacity_kw budget location))
        (roiAnnualSavings (applyBudgetScaling annual_kwh system_capacity_kw budget location)
          household_consumption electricity_rate)) = _
    rw [hp]

/-- Witness for C8: zero production (hence zero savings) yields the 999
sentinel. -/
theorem payback_sentinel_witness :
    roiAnnualSavings (applyBudgetScaling 0 10 none "Berlin") none 0.32 ≤ 0 ∧
    (calculateRoi 0 10 none "Berlin" none 0.32).payback_period = 999 :=
  ⟨by norm_num [roiAnnualSavings, applyBudgetScaling, calculateSelfConsumptionRate,
      selfConsumedKwh, fedInKwh],
    ((payback_sentinel 0 10 none "Berlin" none 0.32).1
      (by norm_num [roiAnnualSavings, applyBudgetScaling, calculateSelfConsumptionRate,
        selfConsumedKwh, fedInKwh])).2⟩

/-- C10: a household consumption of 0, or any non-positive value, is treated
exactly like no value supplied — `calculate_self_consumption_rate` returns the
default 0.40 rate with method `default_average` and no household coverage,
never entering the raw-rate/dampening/clamp path. -/
theorem default_self_consumption_for_nonpositive (solar_production_kwh : ℚ)
    (household_consumption_kwh : Option ℚ)
    (h : household_consumption_kwh = none ∨
      ∃ v, household_consumption_kwh = some v ∧ v ≤ 0) :
    calculateSelfConsumptionRate solar_production_kwh household_consumption_kwh
      = ⟨0.40, "default_average", none, none⟩ := by
  rcases h with rfl | ⟨v, rfl, hv⟩
  · rfl
  · unfold calculateSelfConsumptionRate
    dsimp only
    rw [if_pos hv]

/-- Witness for C10: zero consumption against 9000 kWh production. -/
theorem default_self_consumption_for_nonpositive_witness :
    ((some (0:ℚ)) = none ∨ ∃ v, (some (0:ℚ)) = some v ∧ v ≤ 0) ∧
    calculateSelfConsumptionRate 9000 (some 0)
      = ⟨0.40, "default_average", none, none⟩ :=
  ⟨Or.inr ⟨0, rfl, le_refl 0⟩,
    default_self_consumption_for_nonpositive 9000 (some 0)
      (Or.inr ⟨0, rfl, le_refl 0⟩)⟩

lemma sum_enumFrom_map_range (g : ℕ → ℚ) (h : ℕ → ℚ → ℚ) :
    ∀ (m n : ℕ),
      ((((List.range m).map g).enumFrom n).map (fun p => h p.1 p.2)).sum
        = ((List.range m).map (fun k => h (n + k) (g k))).sum := by
  intro m
  induction m with
  | zero => intro n; rfl
  | succ m ih =>
    intro n
    rw [List.range_succ, List.map_append, List.enumFrom_append, List.map_append,
      List.sum_append, List.length_map, List.length_range, ih]
    rw [List.map_append, List.sum_append]
    simp [List.enumFrom_cons]

/-- C9: `calculate_npv_and_irr` returns as `npv_eur` the 2-decimal rounding
(applied at the end only) of `-total_investment` plus the sum over years
1..25 of `(annual_savings × (1 − 0.005)^year − 200) / 1.04^year`, and as
`irr_percentage` the 1-decimal rounding of
`annual_savings / total_investment × 100` — an approximation, not a
root-find. -/
theorem npv_irr_formulas (annual_savings total_investment : ℚ)
    (hti : 0 < total_investment) :
    (calculateNpvAndIrr annual_savings total_investment).npv_eur
      = roundDp 2 (-total_investment
          + ((List.range 25).map (fun k =>
              (annual_savings * (1 - 0.005) ^ (k + 1) - 200) / (1 + 0.04) ^ (k + 1))).sum) ∧
    (calculateNpvAndIrr annual_savings total_investment).irr_percentage
      = roundDp 1 (annual_savings / total_investment * 100) := by
  constructor
  · show roundDp 2 ((((cashFlows annual_savings total_investment).enum).map
        (fun p => p.2 / (1 + 0.04) ^ p.1)).sum) = _
    congr 1
    rw [cashFlows, List.enum_cons, List.map_cons, List.sum_cons]
    rw [sum_enumFrom_map_range (fun k => annual_savings * (1 - 0.005) ^ (k + 1) - 200)
        (fun i v => v / (1 + 0.04) ^ i) 25 1]
    have hfun : (fun k => (annual_savings * (1 - 0.005) ^ (k + 1) - 200) / (1 + 0.04) ^ (1 + k))
        = (fun k => (annual_savings * (1 - 0.005) ^ (k + 1) - 200) / (1 + 0.04) ^ (k + 1)) := by
      funext k
      rw [Nat.add_comm 1 k]
    rw [hfun]
    norm_num
  · rfl

/-- Witness for C9: annual savings 1000, total investment 500. -/
theorem npv_irr_formulas_witness :
    (0:ℚ) < 500 ∧
    ((calculateNpvAndIrr 1000 500).npv_eur
      = roundDp 2 (-(500:ℚ)
          + ((List.range 25).map (fun k =>
              ((1000:ℚ) * (1 - 0.005) ^ (k + 1) - 200) / (1 + 0.04) ^ (k + 1))).sum) ∧
    (calculateNpvAndIrr 1000 500).irr_percentage
      = roundDp 1 ((1000:ℚ) / 500 * 100)) :=
  ⟨by norm_num, npv_irr_formulas 1000 500 (by norm_num)⟩

end RenewableAnalyzer
